import Mathlib

/-!
Verification of the Fusefy agentic API adapter (files api-v1/tools_config.py,
api-v1/validators.py, api-v1/config.py, api-v1/routers/router.py).

The Python source is shallowly embedded: pure request construction becomes
Lean functions, the network is an explicit stream of attempt outcomes, the
tenacity retry decorator becomes a fuelled loop, and the lru_cache on the
secret resolver becomes explicit state passing.
-/

namespace Fusefy

/-- Minimal JSON value model for request/response bodies. -/
inductive Json where
  | str (s : String) : Json
  | num (n : Int) : Json
  | bool (b : Bool) : Json
  | null : Json
  | arr (xs : List Json) : Json
  | obj (fields : List (String × Json)) : Json

/-- Python truthiness of a JSON value used as a dict argument:
`None`, `\x7b\x7d` and `[]` are falsy (relevant spots pass dicts or None). -/
def Json.truthy : Json → Bool
  | .null => false
  | .obj [] => false
  | .arr [] => false
  | .str s => s ≠ ""
  | .num n => n ≠ 0
  | .bool b => b
  | .obj (_ :: _) => true
  | .arr (_ :: _) => true

/-- Truthiness of an optional dict argument (`data`): `None` and empty are falsy. -/
def truthyOpt : Option Json → Bool
  | none => false
  | some j => j.truthy

/-- Python string `.upper()`, modelled character-wise. -/
def pyUpper (s : String) : String :=
  (s.toList.map Char.toUpper).asString

/-- tools_config.py line 46: `if not endpoint.startswith(slash): endpoint =
slash+endpoint`; for the one-character argument this is exactly a check of
the first character. -/
def normalizeEndpoint (e : String) : String :=
  if e.toList.head? = some '/' then e else "/" ++ e

/-- Python `endpoint.rstrip` of the slash character: drop every trailing slash. -/
def rstripSlash (s : String) : String :=
  ((s.toList.reverse.dropWhile (fun c => c = '/')).reverse).asString

/-- tools_config.py lines 45-52: endpoint normalisation and conditional
resource-id append. The id is appended only when `resource_id` is truthy and
the (raw) method string is GET, PUT or DELETE. The resulting string is both
the request path and the `endpoint` echoed in the result envelope. -/
def buildPath (endpoint : String) (method : String) (resource_id : Option String) : String :=
  let e := normalizeEndpoint endpoint
  match resource_id with
  | some rid =>
      if rid ≠ "" ∧ method ∈ ["GET", "PUT", "DELETE"] then
        rstripSlash e ++ "/" ++ rid
      else e
  | none => e

/-- tools_config.py lines 56-64: fixed JSON headers, plus the raw token under
the custom header key `token` when the token argument is truthy. -/
def buildHeaders (token : Option String) : List (String × String) :=
  let base := [("Content-Type", "application/json"), ("Accept", "application/json")]
  match token with
  | some t => if t ≠ "" then base ++ [("token", t)] else base
  | none => base

/-- The outgoing HTTP request as assembled by `call_fusefy_api` before the
network send (tools_config.py lines 45-74). `path` is the endpoint after
resource-id handling; the full URL is `BASE_URL ++ path`. -/
structure HttpRequest where
  method : String
  path : String
  headers : List (String × String)
  body : Option Json

/-- Deterministic request-construction prefix of `call_fusefy_api`
(tools_config.py lines 45-74): URL building, resource-id append, headers,
JSON body, and the upper-casing of the method at send time. -/
def call_fusefy_api_request (endpoint : String) (method : String)
    (data : Option Json) (token : Option String) (resource_id : Option String) :
    HttpRequest :=
  { method := pyUpper method
    path := buildPath endpoint method resource_id
    headers := buildHeaders token
    body := data }

/-- tools_config.py line 185: the operation-to-verb table of `_manage_resource`,
with the `.get(operation, GET)` default. -/
def method_map (operation : String) : String :=
  (([("list", "GET"), ("get", "GET"), ("create", "POST"),
     ("update", "PUT"), ("delete", "DELETE")].lookup operation)).getD "GET"

/-- tools_config.py lines 182-193: `_manage_resource` forwards to
`call_fusefy_api` with the mapped method, passing `resource_id` only for the
get/update/delete operations. This is its request-construction part. -/
def manage_resource_request (endpoint : String) (operation : String)
    (resource_id : Option String) (data : Option Json) (token : Option String) :
    HttpRequest :=
  call_fusefy_api_request endpoint (method_map operation) data token
    (if operation ∈ ["get", "update", "delete"] then resource_id else none)

/-- tools_config.py lines 196-198: `manage_frameworks` is `_manage_resource`
on the fixed path `/frameworks`. -/
def manage_frameworks_request (operation : String) (framework_id : Option String)
    (data : Option Json) (token : Option String) : HttpRequest :=
  manage_resource_request "/frameworks" operation framework_id data token

end Fusefy

namespace Fusefy

/-- The HTTP verb the spec assigns to each of the five canonical operations. -/
def specVerb (operation : String) : String :=
  if operation = "create" then "POST"
  else if operation = "update" then "PUT"
  else if operation = "delete" then "DELETE"
  else "GET"

theorem mem_five_ops {op : String}
    (h : op ∈ ["list", "get", "create", "update", "delete"]) :
    op = "list" ∨ op = "get" ∨ op = "create" ∨ op = "update" ∨ op = "delete" := by
  simpa using h

theorem buildPath_some_pos (e m rid : String) (hrid : rid ≠ "")
    (hm : m ∈ ["GET", "PUT", "DELETE"]) :
    buildPath e m (some rid) = rstripSlash (normalizeEndpoint e) ++ "/" ++ rid := by
  show (if rid ≠ "" ∧ m ∈ ["GET", "PUT", "DELETE"] then
      rstripSlash (normalizeEndpoint e) ++ "/" ++ rid else normalizeEndpoint e) = _
  rw [if_pos ⟨hrid, hm⟩]

theorem buildPath_none (e m : String) :
    buildPath e m none = normalizeEndpoint e := rfl

end Fusefy

namespace Fusefy

/-- C1: for every resource endpoint and every operation among
list/get/create/update/delete, `_manage_resource` dispatches with the verb
GET/GET/POST/PUT/DELETE respectively, and a (non-empty) resource id is
appended to the path, after stripping trailing slashes, exactly for
get/update/delete and never for list/create. -/
theorem manage_resource_dispatch (endpoint op rid : String)
    (hop : op ∈ ["list", "get", "create", "update", "delete"])
    (hrid : rid ≠ "") (data : Option Json) (token : Option String) :
    (manage_resource_request endpoint op (some rid) data token).method = specVerb op ∧
    (op ∈ ["get", "update", "delete"] →
      (manage_resource_request endpoint op (some rid) data token).path =
        rstripSlash (normalizeEndpoint endpoint) ++ "/" ++ rid) ∧
    (op ∈ ["list", "create"] →
      (manage_resource_request endpoint op (some rid) data token).path =
        normalizeEndpoint endpoint) := by
  rcases mem_five_ops hop with h | h | h | h | h <;> subst h
  · refine ⟨?_, fun hmem => by simp at hmem, fun _ => rfl⟩
    show pyUpper (method_map "list") = specVerb "list"
    decide
  · refine ⟨?_, fun _ => buildPath_some_pos endpoint "GET" rid hrid (by decide),
      fun hmem => by simp at hmem⟩
    show pyUpper (method_map "get") = specVerb "get"
    decide
  · refine ⟨?_, fun hmem => by simp at hmem, fun _ => rfl⟩
    show pyUpper (method_map "create") = specVerb "create"
    decide
  · refine ⟨?_, fun _ => buildPath_some_pos endpoint "PUT" rid hrid (by decide),
      fun hmem => by simp at hmem⟩
    show pyUpper (method_map "update") = specVerb "update"
    decide
  · refine ⟨?_, fun _ => buildPath_some_pos endpoint "DELETE" rid hrid (by decide),
      fun hmem => by simp at hmem⟩
    show pyUpper (method_map "delete") = specVerb "delete"
    decide

/-- Witness for C1 at op = get, endpoint `/frameworks/`, rid `fw-7`. -/
theorem manage_resource_dispatch_witness :
    ("get" : String) ∈ ["list", "get", "create", "update", "delete"] ∧
    ("fw-7" : String) ≠ "" ∧
    (manage_resource_request "/frameworks/" "get" (some "fw-7") none none).method = specVerb "get" ∧
    (manage_resource_request "/frameworks/" "get" (some "fw-7") none none).path =
      rstripSlash (normalizeEndpoint "/frameworks/") ++ "/" ++ "fw-7" := by
  have h := manage_resource_dispatch "/frameworks/" "get" "fw-7" (by decide) (by decide) none none
  exact ⟨by decide, by decide, h.1, h.2.1 (by decide)⟩

end Fusefy

namespace Fusefy

/-- What one attempt of the network send observes (tools_config.py lines
66-113): a transport-level failure (aiohttp ClientError or TimeoutError), an
HTTP response of some status and body text, or any other local exception
inside the try block. -/
inductive AttemptOutcome where
  | transportFailure (msg : String)
  | httpResponse (status : Nat) (bodyText : String)
  | localError (msg : String)

def isTransportFailure : AttemptOutcome → Bool
  | .transportFailure _ => true
  | _ => false

/-- The uniform result envelope returned by `call_fusefy_api`. `data` is
`none` on the synthetic exception envelope, which carries no data key. -/
structure ResultEnvelope where
  status : Nat
  data : Option Json
  success : Bool
  endpoint : String
  method : String
  error : Option String

/-- tools_config.py lines 76-81: parse the body as JSON when non-empty; an
empty body becomes an empty object; a parse failure wraps the raw text. The
JSON parser itself is the external json library, passed as `parse`. -/
def buildResponseData (parse : String → Option Json) (text : String) : Json :=
  if text = "" then Json.obj []
  else
    match parse text with
    | some j => j
    | none => Json.obj [("raw_response", Json.str text)]

/-- tools_config.py lines 91-96: status classification into the optional
error message of the envelope. -/
def classifyError (status : Nat) : Option String :=
  if status = 401 then some "Authentication failed. Please provide a valid JWT token."
  else if status ≥ 400 then some ("API error: " ++ toString status)
  else none

/-- tools_config.py lines 83-100: the envelope built from a received HTTP
response. `path` is the endpoint string after resource-id handling, which is
what the source echoes back. -/
def mkEnvelope (parse : String → Option Json) (path method : String)
    (status : Nat) (text : String) : ResultEnvelope :=
  { status := status
    data := some (buildResponseData parse text)
    success := decide (200 ≤ status ∧ status < 300)
    endpoint := path
    method := method
    error := classifyError status }

/-- tools_config.py lines 105-113: the synthetic envelope returned when an
unexpected (non-transport) local exception is caught. -/
def syntheticEnvelope (path method msg : String) : ResultEnvelope :=
  { status := 500
    data := none
    success := false
    endpoint := path
    method := method
    error := some msg }

/-- One attempt of the decorated body: a transport failure is re-raised to
the retry decorator (tools_config.py lines 102-104), a response is turned
into an envelope, and any other exception returns the synthetic envelope. -/
def attemptBody (parse : String → Option Json) (path method : String) :
    AttemptOutcome → Except String ResultEnvelope
  | .transportFailure msg => .error msg
  | .httpResponse status text => .ok (mkEnvelope parse path method status text)
  | .localError msg => .ok (syntheticEnvelope path method msg)

/-- config.py line 21: `MAX_RETRIES = 3`, the total attempt budget of
`stop_after_attempt`. -/
def MAX_RETRIES : Nat := 3

/-- The tenacity wrapper of tools_config.py lines 20-25: run attempt `i`; a
returned value ends the loop, a raised (transport) exception is retried
while fuel remains, and on exhaustion the last exception is re-raised
(`reraise=True`). -/
def retryLoop (f : Nat → Except String ResultEnvelope) :
    Nat → Nat → Except String ResultEnvelope
  | _, 0 => .error "retry budget exhausted"
  | i, r + 1 =>
    match f i with
    | .ok v => .ok v
    | .error msg => if r = 0 then .error msg else retryLoop f (i + 1) r

/-- Number of attempts the wrapper performs. -/
def retryCount (f : Nat → Except String ResultEnvelope) : Nat → Nat → Nat
  | _, 0 => 0
  | i, r + 1 =>
    match f i with
    | .ok _ => 1
    | .error _ => if r = 0 then 1 else 1 + retryCount f (i + 1) r

/-- `call_fusefy_api` end to end: deterministic request construction, then
the retried send. `outcomes i` is what attempt number `i` observes; the
result is either a returned envelope or a re-raised transport exception. -/
def call_fusefy_api (parse : String → Option Json)
    (endpoint method : String) (data : Option Json)
    (token : Option String) (resource_id : Option String)
    (outcomes : Nat → AttemptOutcome) : Except String ResultEnvelope :=
  retryLoop (fun i => attemptBody parse (buildPath endpoint method resource_id) method (outcomes i))
    0 MAX_RETRIES

/-- Total number of attempts `call_fusefy_api` performs against `outcomes`. -/
def call_attempts (parse : String → Option Json)
    (endpoint method : String) (resource_id : Option String)
    (outcomes : Nat → AttemptOutcome) : Nat :=
  retryCount (fun i => attemptBody parse (buildPath endpoint method resource_id) method (outcomes i))
    0 MAX_RETRIES

theorem retryLoop_succ (f : Nat → Except String ResultEnvelope) (i r : Nat) :
    retryLoop f i (r + 1) =
      match f i with
      | .ok v => .ok v
      | .error msg => if r = 0 then .error msg else retryLoop f (i + 1) r := rfl

theorem retryCount_succ (f : Nat → Except String ResultEnvelope) (i r : Nat) :
    retryCount f i (r + 1) =
      match f i with
      | .ok _ => 1
      | .error _ => if r = 0 then 1 else 1 + retryCount f (i + 1) r := rfl

/-- Any envelope the wrapper returns was produced by some single attempt. -/
theorem retryLoop_ok (f : Nat → Except String ResultEnvelope) (r : Nat) :
    ∀ i v, retryLoop f i r = .ok v → ∃ j, f j = .ok v := by
  induction r with
  | zero => intro i v h; simp [retryLoop] at h
  | succ r ih =>
    intro i v h
    rw [retryLoop_succ] at h
    cases hf : f i with
    | ok w =>
      rw [hf] at h
      exact ⟨i, by rw [hf]; exact h⟩
    | error msg =>
      simp only [hf] at h
      by_cases hr : r = 0
      · rw [if_pos hr] at h; cases h
      · rw [if_neg hr] at h
        exact ih (i + 1) v h

/-- If the wrapper re-raises, every attempt within the budget raised. -/
theorem retryLoop_error_all (f : Nat → Except String ResultEnvelope) (r : Nat) :
    ∀ i msg, retryLoop f i r = .error msg →
      ∀ j, i ≤ j → j < i + r → ∃ m, f j = .error m := by
  induction r with
  | zero => intro i msg _ j hij hlt; omega
  | succ r ih =>
    intro i msg h j hij hlt
    rw [retryLoop_succ] at h
    cases hf : f i with
    | ok w => rw [hf] at h; cases h
    | error m0 =>
      simp only [hf] at h
      rcases Nat.eq_or_lt_of_le hij with rfl | hgt
      · exact ⟨m0, hf⟩
      · by_cases hr : r = 0
        · omega
        · rw [if_neg hr] at h
          exact ih (i + 1) msg h j hgt (by omega)

end Fusefy

namespace Fusefy

/-- C2: every envelope `call_fusefy_api` returns — whether built from an HTTP
response or synthesised from a local exception — has `success = true` exactly
when its status lies in the interval from 200 up to but excluding 300. -/
theorem call_fusefy_api_success_iff (parse : String → Option Json)
    (endpoint method : String) (data : Option Json)
    (token : Option String) (resource_id : Option String)
    (outcomes : Nat → AttemptOutcome) (env : ResultEnvelope)
    (h : call_fusefy_api parse endpoint method data token resource_id outcomes =
      .ok env) :
    env.success = true ↔ 200 ≤ env.status ∧ env.status < 300 := by
  obtain ⟨j, hj⟩ := retryLoop_ok _ MAX_RETRIES 0 env h
  cases ho : outcomes j <;> rw [ho] at hj
  · cases hj
  · cases hj
    simp [mkEnvelope]
  · cases hj
    simp [syntheticEnvelope]

/-- Witness for C2: a 204 response yields a returned envelope, and the
theorem applies to it. -/
theorem call_fusefy_api_success_iff_witness :
    call_fusefy_api (fun _ => none) "/frameworks" "GET" none none none
        (fun _ => .httpResponse 204 "") =
      .ok (mkEnvelope (fun _ => none) "/frameworks" "GET" 204 "") ∧
    ((mkEnvelope (fun _ => none) "/frameworks" "GET" 204 "").success = true ↔
      200 ≤ (mkEnvelope (fun _ => none) "/frameworks" "GET" 204 "").status ∧
        (mkEnvelope (fun _ => none) "/frameworks" "GET" 204 "").status < 300) := by
  have hpath : buildPath "/frameworks" "GET" none = "/frameworks" := by decide
  have hcall : call_fusefy_api (fun _ => none) "/frameworks" "GET" none none none
      (fun _ => .httpResponse 204 "") =
      .ok (mkEnvelope (fun _ => none) "/frameworks" "GET" 204 "") := by
    show Except.ok (mkEnvelope (fun _ => none) (buildPath "/frameworks" "GET" none) "GET" 204 "") = _
    rw [hpath]
  refine ⟨hcall, ?_⟩
  exact call_fusefy_api_success_iff (fun _ => none) "/frameworks" "GET" none none none
    (fun _ => .httpResponse 204 "") _ hcall

end Fusefy

namespace Fusefy

theorem attemptBody_transport (parse : String → Option Json) (path method : String)
    (o : AttemptOutcome) (h : isTransportFailure o = true) :
    ∃ msg, attemptBody parse path method o = .error msg := by
  cases o with
  | transportFailure m => exact ⟨m, rfl⟩
  | httpResponse st text => simp [isTransportFailure] at h
  | localError m => simp [isTransportFailure] at h

/-- C3: `call_fusefy_api` retries only on transport-level failures. An HTTP
response at any attempt — any status, 4xx/5xx included — ends the call at
once with that response's envelope; with transport failures at every attempt
within the budget it stops after exactly MAX_RETRIES (3) attempts; and with
fewer consecutive transport failures followed by a response it returns that
response with at most MAX_RETRIES total attempts. -/
theorem call_fusefy_api_retry_policy (parse : String → Option Json)
    (endpoint method : String) (data : Option Json) (token : Option String)
    (resource_id : Option String) (outcomes : Nat → AttemptOutcome) :
    ((∀ j, j < MAX_RETRIES → isTransportFailure (outcomes j) = true) →
      call_attempts parse endpoint method resource_id outcomes = MAX_RETRIES ∧
      ∃ msg, call_fusefy_api parse endpoint method data token resource_id outcomes =
        Except.error msg) ∧
    (∀ k st text, k < MAX_RETRIES →
      (∀ j, j < k → isTransportFailure (outcomes j) = true) →
      outcomes k = AttemptOutcome.httpResponse st text →
      call_fusefy_api parse endpoint method data token resource_id outcomes =
        Except.ok (mkEnvelope parse (buildPath endpoint method resource_id) method st text) ∧
      call_attempts parse endpoint method resource_id outcomes = k + 1 ∧
      k + 1 ≤ MAX_RETRIES) := by
  constructor
  · intro h
    obtain ⟨m0, h0⟩ := attemptBody_transport parse (buildPath endpoint method resource_id)
      method (outcomes 0) (h 0 (by decide))
    obtain ⟨m1, h1⟩ := attemptBody_transport parse (buildPath endpoint method resource_id)
      method (outcomes 1) (h 1 (by decide))
    obtain ⟨m2, h2⟩ := attemptBody_transport parse (buildPath endpoint method resource_id)
      method (outcomes 2) (h 2 (by decide))
    refine ⟨?_, m2, ?_⟩
    · show retryCount _ 0 3 = 3
      rw [retryCount_succ]; simp only [h0]
      rw [retryCount_succ]; simp only [h1]
      rw [retryCount_succ]; simp only [h2]
      norm_num
    · show retryLoop _ 0 3 = Except.error m2
      rw [retryLoop_succ]; simp only [h0]
      rw [retryLoop_succ]; simp only [h1]
      rw [retryLoop_succ]; simp only [h2]
      norm_num
  · intro k st text hk hpre hresp
    simp only [MAX_RETRIES] at hk
    interval_cases k
    · refine ⟨?_, ?_, by decide⟩
      · show retryLoop _ 0 3 = _
        rw [retryLoop_succ]
        simp only [hresp, attemptBody]
      · show retryCount _ 0 3 = 1
        rw [retryCount_succ]
        simp only [hresp, attemptBody]
    · obtain ⟨m0, h0⟩ := attemptBody_transport parse (buildPath endpoint method resource_id)
        method (outcomes 0) (hpre 0 (by norm_num))
      refine ⟨?_, ?_, by decide⟩
      · show retryLoop _ 0 3 = _
        rw [retryLoop_succ]; simp only [h0]
        rw [retryLoop_succ]; simp only [hresp, attemptBody]
        norm_num
      · show retryCount _ 0 3 = 2
        rw [retryCount_succ]; simp only [h0]
        rw [retryCount_succ]; simp only [hresp, attemptBody]
        norm_num
    · obtain ⟨m0, h0⟩ := attemptBody_transport parse (buildPath endpoint method resource_id)
        method (outcomes 0) (hpre 0 (by norm_num))
      obtain ⟨m1, h1⟩ := attemptBody_transport parse (buildPath endpoint method resource_id)
        method (outcomes 1) (hpre 1 (by norm_num))
      refine ⟨?_, ?_, by decide⟩
      · show retryLoop _ 0 3 = _
        rw [retryLoop_succ]; simp only [h0]
        rw [retryLoop_succ]; simp only [h1]
        rw [retryLoop_succ]; simp only [hresp, attemptBody]
        norm_num
      · show retryCount _ 0 3 = 3
        rw [retryCount_succ]; simp only [h0]
        rw [retryCount_succ]; simp only [h1]
        rw [retryCount_succ]; simp only [hresp, attemptBody]
        norm_num

/-- Witness for C3: three timeouts use exactly three attempts; one connection
reset followed by a 200 response returns that response in two attempts. -/
theorem call_fusefy_api_retry_policy_witness :
    call_attempts (fun _ => none) "/frameworks" "GET" none
      (fun _ => .transportFailure "timeout") = MAX_RETRIES ∧
    call_fusefy_api (fun _ => none) "/frameworks" "GET" none none none
      (fun i => if i = 0 then .transportFailure "reset" else .httpResponse 200 "") =
      Except.ok (mkEnvelope (fun _ => none) (buildPath "/frameworks" "GET" none) "GET" 200 "") ∧
    call_attempts (fun _ => none) "/frameworks" "GET" none
      (fun i => if i = 0 then .transportFailure "reset" else .httpResponse 200 "") = 2 := by
  have h1 := (call_fusefy_api_retry_policy (fun _ => none) "/frameworks" "GET" none none none
    (fun _ => .transportFailure "timeout")).1 (fun j _ => rfl)
  have h2 := (call_fusefy_api_retry_policy (fun _ => none) "/frameworks" "GET" none none none
    (fun i => if i = 0 then .transportFailure "reset" else .httpResponse 200 "")).2
    1 200 "" (by decide) (fun j hj => by interval_cases j; rfl) rfl
  exact ⟨h1.1, h2.1, h2.2.1⟩

/-- C4 counterexample: when every attempt hits a transport failure,
`call_fusefy_api` re-raises the transport exception after the budget is
exhausted (tenacity reraise) instead of returning a synthetic 500 envelope,
so the claim that no exception ever propagates to the caller is false. -/
theorem call_fusefy_api_exhaustion_reraises :
    call_fusefy_api (fun _ => none) "/frameworks" "GET" none none none
      (fun _ => AttemptOutcome.transportFailure "DNS failure") =
    Except.error "DNS failure" := by
  show retryLoop _ 0 3 = _
  rw [retryLoop_succ]; simp only [attemptBody]
  rw [retryLoop_succ]; simp only [attemptBody]
  rw [retryLoop_succ]; simp only [attemptBody]
  norm_num

/-- C4 amended: a non-transport local exception is caught and converted into
the returned synthetic envelope with status 500, success false and the error
message; the call propagates an exception only when every attempt within the
retry budget hit a transport failure. -/
theorem call_fusefy_api_exception_boundary (parse : String → Option Json)
    (endpoint method : String) (data : Option Json) (token : Option String)
    (resource_id : Option String) (outcomes : Nat → AttemptOutcome) :
    (∀ msg, call_fusefy_api parse endpoint method data token resource_id outcomes =
        Except.error msg →
      ∀ j, j < MAX_RETRIES → isTransportFailure (outcomes j) = true) ∧
    (∀ msg, outcomes 0 = AttemptOutcome.localError msg →
      call_fusefy_api parse endpoint method data token resource_id outcomes =
        Except.ok (syntheticEnvelope (buildPath endpoint method resource_id) method msg) ∧
      (syntheticEnvelope (buildPath endpoint method resource_id) method msg).status = 500 ∧
      (syntheticEnvelope (buildPath endpoint method resource_id) method msg).success = false ∧
      (syntheticEnvelope (buildPath endpoint method resource_id) method msg).error = some msg) := by
  constructor
  · intro msg h j hj
    obtain ⟨m, hm⟩ := retryLoop_error_all _ MAX_RETRIES 0 msg h j (Nat.zero_le j)
      (by simpa using hj)
    cases ho : outcomes j <;> rw [ho] at hm
    · rfl
    · simp [attemptBody] at hm
    · simp [attemptBody] at hm
  · intro msg h0
    refine ⟨?_, rfl, rfl, rfl⟩
    show retryLoop _ 0 3 = _
    rw [retryLoop_succ]
    simp only [h0, attemptBody]

/-- Witness for C4 amended: a local exception on the first attempt yields the
synthetic 500 envelope. -/
theorem call_fusefy_api_exception_boundary_witness :
    (fun _ => AttemptOutcome.localError "boom" : Nat → AttemptOutcome) 0 =
      AttemptOutcome.localError "boom" ∧
    call_fusefy_api (fun _ => none) "/frameworks" "GET" none none none
      (fun _ => AttemptOutcome.localError "boom") =
      Except.ok (syntheticEnvelope (buildPath "/frameworks" "GET" none) "GET" "boom") ∧
    (syntheticEnvelope (buildPath "/frameworks" "GET" none) "GET" "boom").status = 500 ∧
    (syntheticEnvelope (buildPath "/frameworks" "GET" none) "GET" "boom").success = false := by
  have h := (call_fusefy_api_exception_boundary (fun _ => none) "/frameworks" "GET"
    none none none (fun _ => AttemptOutcome.localError "boom")).2 "boom" rfl
  exact ⟨rfl, h.1, h.2.1, h.2.2.1⟩

end Fusefy

namespace Fusefy

theorem retryLoop_first_ok (f : Nat → Except String ResultEnvelope) (i r : Nat)
    (v : ResultEnvelope) (h : f i = .ok v) : retryLoop f i (r + 1) = .ok v := by
  rw [retryLoop_succ, h]

/-- validators.py lines 20-39: the `ResourceOperation` pydantic model, as the
first validation error its field checks raise, in field declaration order:
operation literal, resource_id minimum length 1, the resource-id-required
rule, the data-required rule (an empty dict is also falsy), token minimum
length 10. -/
def ResourceOperation.validate (operation : String) (resource_id : Option String)
    (data : Option Json) (token : String) : Except String Unit :=
  if operation ∉ ["list", "get", "create", "update", "delete"] then
    .error "operation: unpermitted value"
  else if resource_id = some "" then
    .error "resource_id: ensure this value has at least 1 characters"
  else if operation ∈ ["get", "update", "delete"] ∧ resource_id = none then
    .error ("resource_id required for " ++ operation ++ " operation")
  else if operation ∈ ["create", "update"] ∧ truthyOpt data = false then
    .error ("data required for " ++ operation ++ " operation")
  else if token.length < 10 then
    .error "token: ensure this value has at least 10 characters"
  else .ok ()

/-- C5 evaluation at the failing input: a get without resource_id is exactly
what `ResourceOperation` (imported by tools_config and matching the claimed
rule) rejects, yet `_manage_resource` never invokes it: the dispatch builds
and issues a GET request to the collection path, and the network layer is
reached — an HTTP response comes back as a normal envelope instead of a
validation failure. -/
theorem manage_resource_skips_validation :
    ResourceOperation.validate "get" none none "abcdefghij" =
      Except.error "resource_id required for get operation" ∧
    (manage_resource_request "/frameworks" "get" none none (some "abcdefghij")).method =
      "GET" ∧
    (manage_resource_request "/frameworks" "get" none none (some "abcdefghij")).path =
      "/frameworks" ∧
    (manage_resource_request "/frameworks" "get" none none (some "abcdefghij")).headers =
      [("Content-Type", "application/json"), ("Accept", "application/json"),
        ("token", "abcdefghij")] ∧
    call_fusefy_api (fun _ => none) "/frameworks" "GET" none (some "abcdefghij") none
      (fun _ => AttemptOutcome.httpResponse 200 "") =
      Except.ok (mkEnvelope (fun _ => none) (buildPath "/frameworks" "GET" none)
        "GET" 200 "") := by
  refine ⟨by rfl, by decide, by decide, by decide, ?_⟩
  exact retryLoop_first_ok _ 0 2 _ rfl

/-- C6: a non-empty token rides under the custom header key `token` — not
under Authorization — next to the fixed JSON Content-Type and Accept
headers; and `manage_frameworks` with operation get, id fw-7 and token t
issues GET /frameworks/fw-7 carrying header token: t. -/
theorem token_header_policy (endpoint method : String) (data : Option Json)
    (resource_id : Option String) (t : String) (ht : t ≠ "") :
    (call_fusefy_api_request endpoint method data (some t) resource_id).headers =
      [("Content-Type", "application/json"), ("Accept", "application/json"),
        ("token", t)] ∧
    (∀ v, ("Authorization", v) ∉
      (call_fusefy_api_request endpoint method data (some t) resource_id).headers) ∧
    (manage_frameworks_request "get" (some "fw-7") none (some "t")).method = "GET" ∧
    (manage_frameworks_request "get" (some "fw-7") none (some "t")).path =
      "/frameworks/fw-7" ∧
    ("token", "t") ∈ (manage_frameworks_request "get" (some "fw-7") none (some "t")).headers := by
  have hh : (call_fusefy_api_request endpoint method data (some t) resource_id).headers =
      [("Content-Type", "application/json"), ("Accept", "application/json"),
        ("token", t)] := by
    show buildHeaders (some t) = _
    simp [buildHeaders, ht]
  refine ⟨hh, ?_, by decide, by decide, by decide⟩
  intro v hv
  rw [hh] at hv
  simp at hv

/-- Witness for C6 at token t. -/
theorem token_header_policy_witness :
    ("t" : String) ≠ "" ∧
    (call_fusefy_api_request "/frameworks" "GET" none (some "t") none).headers =
      [("Content-Type", "application/json"), ("Accept", "application/json"),
        ("token", "t")] := by
  refine ⟨by decide, ?_⟩
  exact (token_header_policy "/frameworks" "GET" none none "t" (by decide)).1

/-- C7: an HTTP response whose body text is not parseable JSON does not
raise: the call returns an envelope whose data wraps the raw body text under
the raw_response key. -/
theorem call_fusefy_api_raw_fallback (parse : String → Option Json)
    (endpoint method : String) (data : Option Json) (token : Option String)
    (resource_id : Option String) (outcomes : Nat → AttemptOutcome)
    (st : Nat) (text : String)
    (hresp : outcomes 0 = AttemptOutcome.httpResponse st text)
    (hparse : parse text = none) (htext : text ≠ "") :
    call_fusefy_api parse endpoint method data token resource_id outcomes =
      Except.ok (mkEnvelope parse (buildPath endpoint method resource_id) method st text) ∧
    (mkEnvelope parse (buildPath endpoint method resource_id) method st text).data =
      some (Json.obj [("raw_response", Json.str text)]) := by
  constructor
  · show retryLoop _ 0 3 = _
    rw [retryLoop_succ]
    simp only [hresp, attemptBody]
  · simp [mkEnvelope, buildResponseData, hparse, htext]

/-- Witness for C7: a 502 with a non-JSON body. -/
theorem call_fusefy_api_raw_fallback_witness :
    (fun _ => AttemptOutcome.httpResponse 502 "Bad Gateway" : Nat → AttemptOutcome) 0 =
      AttemptOutcome.httpResponse 502 "Bad Gateway" ∧
    (fun _ => none : String → Option Json) "Bad Gateway" = none ∧
    ("Bad Gateway" : String) ≠ "" ∧
    call_fusefy_api (fun _ => none) "/frameworks" "GET" none none none
      (fun _ => AttemptOutcome.httpResponse 502 "Bad Gateway") =
      Except.ok (mkEnvelope (fun _ => none) (buildPath "/frameworks" "GET" none)
        "GET" 502 "Bad Gateway") ∧
    (mkEnvelope (fun _ => none) (buildPath "/frameworks" "GET" none)
        "GET" 502 "Bad Gateway").data =
      some (Json.obj [("raw_response", Json.str "Bad Gateway")]) := by
  have h := call_fusefy_api_raw_fallback (fun _ => none) "/frameworks" "GET" none none
    none (fun _ => AttemptOutcome.httpResponse 502 "Bad Gateway") 502 "Bad Gateway"
    rfl rfl (by decide)
  exact ⟨rfl, rfl, by decide, h.1, h.2⟩

end Fusefy

namespace Fusefy

/-- What the external `jwt.decode` call does for a given token and secret: a
decoded claim set, or any raised exception rendered to its message. -/
inductive DecodeOutcome where
  | ok (payload : List (String × Json))
  | exn (msg : String)

/-- The dict `verify_jwt_token` returns. -/
structure VerifyResult where
  valid : Bool
  payload : Option (List (String × Json))
  error : Option String

/-- router.py lines 28-35: `verify_jwt_token` wraps a successful decode as
valid with the payload, and catches every exception into valid false with
the fixed reason text prefixed to the exception message. -/
def verify_jwt_token (decode : String → String → DecodeOutcome)
    (token secret : String) : VerifyResult :=
  match decode token secret with
  | .ok p => { valid := true, payload := some p, error := none }
  | .exn e =>
      { valid := false, payload := none,
        error := some ("Token verification failed: " ++ e) }

/-- C8: `verify_jwt_token` fails closed: whatever the decode does, it
returns either valid true with the payload, or valid false with an error
message containing the text Token verification failed; in particular the
expired-token exception yields valid false with that error text. -/
theorem verify_jwt_token_fails_closed (decode : String → String → DecodeOutcome)
    (token secret : String) :
    ((∃ p, decode token secret = .ok p ∧
      verify_jwt_token decode token secret =
        { valid := true, payload := some p, error := none }) ∨
    (∃ e, decode token secret = .exn e ∧
      verify_jwt_token decode token secret =
        { valid := false, payload := none,
          error := some ("Token verification failed" ++ (": " ++ e)) })) ∧
    (verify_jwt_token (fun _ _ => .exn "Signature has expired") token secret).valid
      = false ∧
    (verify_jwt_token (fun _ _ => .exn "Signature has expired") token secret).error
      = some ("Token verification failed" ++ ": Signature has expired") := by
  refine ⟨?_, rfl, by rfl⟩
  cases hd : decode token secret with
  | ok p => exact Or.inl ⟨p, rfl, by simp [verify_jwt_token, hd]⟩
  | exn e =>
      refine Or.inr ⟨e, rfl, ?_⟩
      simp only [verify_jwt_token, hd]
      rfl

end Fusefy

namespace Fusefy

/-- config.py lines 49-68: state of `get_jwt_secret` under functools
lru_cache with maxsize 1. `cached` is the memoized return value; `fetches`
counts the calls made to the secret store (`get_secret_value`). lru_cache
memoizes returns only — a call that raises caches nothing. The JSON
unwrapping of the fetched SecretString (lines 57-64) is pure
post-processing folded into the store's response value. -/
structure SecretCache where
  cached : Option String
  fetches : Nat

def initialSecretCache : SecretCache := { cached := none, fetches := 0 }

/-- One call to `get_jwt_secret`: a cache hit returns the memoized value
without a store call; on a cold cache the store is fetched once — a success
is cached and returned, an exception propagates (config.py lines 66-68) and
leaves the cache cold. `store k` is the store's behaviour on its k-th fetch. -/
def get_jwt_secret_call (store : Nat → Except String String) (s : SecretCache) :
    SecretCache × Except String String :=
  match s.cached with
  | some v => (s, .ok v)
  | none =>
    match store s.fetches with
    | .ok secret => ({ cached := some secret, fetches := s.fetches + 1 }, .ok secret)
    | .error e => ({ cached := none, fetches := s.fetches + 1 }, .error e)

/-- State after n calls to `get_jwt_secret` in one process. -/
def runSecretCalls (store : Nat → Except String String) : Nat → SecretCache
  | 0 => initialSecretCache
  | n + 1 => (get_jwt_secret_call store (runSecretCalls store n)).1

/-- Result of the call that moves the state from n calls to n + 1. -/
def secretCallResult (store : Nat → Except String String) (n : Nat) :
    Except String String :=
  (get_jwt_secret_call store (runSecretCalls store n)).2

/-- C9 counterexample: when the first call's store fetch raises, the
exception is not cached, so the second call fetches the store again: after
two calls — the second of which succeeds — the store has been fetched twice,
refuting that the fetch is performed exactly once per process. -/
theorem get_jwt_secret_not_single_fetch :
    secretCallResult
      (fun i => if i = 0 then Except.error "store unreachable" else Except.ok "jwt-secret")
      0 = Except.error "store unreachable" ∧
    secretCallResult
      (fun i => if i = 0 then Except.error "store unreachable" else Except.ok "jwt-secret")
      1 = Except.ok "jwt-secret" ∧
    (runSecretCalls
      (fun i => if i = 0 then Except.error "store unreachable" else Except.ok "jwt-secret")
      2).fetches = 2 := by
  refine ⟨rfl, rfl, rfl⟩

/-- C9 amended: every call until the first success performs its own store
fetch (n cold calls mean n fetches); once a call has succeeded, its value is
cached: every later call returns exactly that first successful result and
performs no further store fetch. -/
theorem get_jwt_secret_memoization (store : Nat → Except String String) (n : Nat) :
    ((runSecretCalls store n).cached = none → (runSecretCalls store n).fetches = n) ∧
    (∀ v, (runSecretCalls store n).cached = some v →
      ∀ m, n ≤ m →
        (runSecretCalls store m).cached = some v ∧
        (runSecretCalls store m).fetches = (runSecretCalls store n).fetches ∧
        secretCallResult store m = Except.ok v) := by
  constructor
  · induction n with
    | zero => intro _; rfl
    | succ n ih =>
      intro h
      cases hs : (runSecretCalls store n).cached with
      | some v =>
        exfalso
        have h1 : runSecretCalls store (n + 1) = runSecretCalls store n := by
          show (get_jwt_secret_call store (runSecretCalls store n)).1 = _
          simp [get_jwt_secret_call, hs]
        rw [h1, hs] at h
        cases h
      | none =>
        cases hst : store (runSecretCalls store n).fetches with
        | ok secret =>
          exfalso
          have h1 : (runSecretCalls store (n + 1)).cached = some secret := by
            show (get_jwt_secret_call store (runSecretCalls store n)).1.cached = _
            simp [get_jwt_secret_call, hs, hst]
          rw [h1] at h
          cases h
        | error e =>
          have h1 : (runSecretCalls store (n + 1)).fetches =
              (runSecretCalls store n).fetches + 1 := by
            show (get_jwt_secret_call store (runSecretCalls store n)).1.fetches = _
            simp [get_jwt_secret_call, hs, hst]
          rw [h1, ih hs]
  · intro v hv m hm
    induction m with
    | zero =>
      have hn : n = 0 := Nat.le_zero.mp hm
      subst hn
      refine ⟨hv, rfl, ?_⟩
      show (get_jwt_secret_call store (runSecretCalls store 0)).2 = _
      simp [get_jwt_secret_call, hv]
    | succ m ihm =>
      rcases Nat.lt_or_ge n (m + 1) with hlt | hge
      · have hm' : n ≤ m := by omega
        obtain ⟨hc, hf, hr⟩ := ihm hm'
        have hstate : runSecretCalls store (m + 1) = runSecretCalls store m := by
          show (get_jwt_secret_call store (runSecretCalls store m)).1 = _
          simp [get_jwt_secret_call, hc]
        refine ⟨by rw [hstate]; exact hc, by rw [hstate]; exact hf, ?_⟩
        show (get_jwt_secret_call store (runSecretCalls store (m + 1))).2 = _
        rw [hstate]
        simp [get_jwt_secret_call, hc]
      · have hn : n = m + 1 := by omega
        subst hn
        refine ⟨hv, rfl, ?_⟩
        show (get_jwt_secret_call store (runSecretCalls store (m + 1))).2 = _
        simp [get_jwt_secret_call, hv]

/-- Witness for C9 amended: with a store that always succeeds, the value
cached by the first call is returned by the later calls with no extra fetch. -/
theorem get_jwt_secret_memoization_witness :
    (runSecretCalls (fun _ => Except.ok "jwt-secret") 1).cached = some "jwt-secret" ∧
    (1 : Nat) ≤ 2 ∧
    (runSecretCalls (fun _ => Except.ok "jwt-secret") 2).cached = some "jwt-secret" ∧
    (runSecretCalls (fun _ => Except.ok "jwt-secret") 2).fetches =
      (runSecretCalls (fun _ => Except.ok "jwt-secret") 1).fetches ∧
    secretCallResult (fun _ => Except.ok "jwt-secret") 2 = Except.ok "jwt-secret" := by
  have h := (get_jwt_secret_memoization (fun _ => Except.ok "jwt-secret") 1).2
    "jwt-secret" rfl 2 (by norm_num)
  exact ⟨rfl, by norm_num, h.1, h.2.1, h.2.2⟩

end Fusefy

namespace Fusefy

/-- One operation object of the upstream API documentation, restricted to
the fields `list_available_endpoints` reads (tools_config.py lines 145-170):
tags, summary, description, the security list, declared parameter names and
requestBody presence. -/
structure OpDetails where
  tags : List String
  summary : String
  description : String
  security : List String
  parameters : List String
  requestBody : Bool

/-- The method names the catalog builder considers (lowercase, as they
appear in the docs object). -/
def crudMethods : List String := ["get", "post", "put", "delete"]

/-- tools_config.py lines 143-150: the category of a path is the first tag
of the first get/post/put/delete entry of the path (the loop breaks at that
entry), defaulting to general when that entry declares no tags or no such
entry exists. -/
def pathCategory (methods : List (String × OpDetails)) : String :=
  match methods.find? (fun p => decide (p.1 ∈ crudMethods)) with
  | some (_, d) =>
    match d.tags with
    | [] => "general"
    | t :: _ => t
  | none => "general"

/-- tools_config.py lines 162-169: the operation summary entry. -/
structure OperationInfo where
  method : String
  summary : String
  description : String
  requiresAuth : Bool
  parameters : List String
  requiresBody : Bool

def opInfo (method : String) (d : OpDetails) : OperationInfo :=
  { method := pyUpper method
    summary := d.summary
    description := d.description
    requiresAuth := !d.security.isEmpty
    parameters := d.parameters
    requiresBody := d.requestBody }

/-- tools_config.py lines 160-170: the operations recorded for one path. -/
def pathOperations (methods : List (String × OpDetails)) : List OperationInfo :=
  (methods.filter (fun p => decide (p.1 ∈ crudMethods))).map (fun p => opInfo p.1 p.2)

/-- tools_config.py lines 139-180: the categories grouping, modelled
flattened as the list of (path, category, operations) entries in insertion
order; a path with no CRUD operation is dropped (lines 172-173). -/
def list_available_endpoints (paths : List (String × List (String × OpDetails))) :
    List (String × String × List OperationInfo) :=
  paths.filterMap (fun pm =>
    if (pathOperations pm.2).isEmpty then none
    else some (pm.1, pathCategory pm.2, pathOperations pm.2))

/-- Modelled from the spec words of C10: the first declared tag of the path,
scanning the path's CRUD operations in order for the first non-empty tag
list, with general when no tag is declared anywhere on the path. -/
def specFirstDeclaredTag (methods : List (String × OpDetails)) : String :=
  match (methods.filter (fun p => decide (p.1 ∈ crudMethods))).findSome?
      (fun p => p.2.tags.head?) with
  | some t => t
  | none => "general"

/-- A documentation operation entry with the given tags and body flag. -/
def demoOp (tags : List String) (body : Bool) : OpDetails :=
  { tags := tags, summary := "", description := "", security := [],
    parameters := [], requestBody := body }

/-- A path whose first CRUD operation is untagged while its second declares
a tag. -/
def mixedTagOps : List (String × OpDetails) :=
  [("get", demoOp [] false), ("post", demoOp ["frameworks"] true)]

/-- C10 counterexample: on a path whose first CRUD operation is untagged but
whose second operation declares the tag frameworks, the first declared tag
of the path is frameworks, yet the code groups the path under general — the
loop reads only the first CRUD operation's tags before breaking. -/
theorem list_endpoints_first_tag_counterexample :
    specFirstDeclaredTag mixedTagOps = "frameworks" ∧
    pathCategory mixedTagOps = "general" ∧
    list_available_endpoints [("/frameworks", mixedTagOps)] =
      [("/frameworks", "general", pathOperations mixedTagOps)] ∧
    ("general" : String) ≠ "frameworks" := by
  refine ⟨rfl, rfl, rfl, by decide⟩

/-- The scenario catalog: one path with two tagged operations, one path with
a single untagged operation. -/
def demoCatalog : List (String × List (String × OpDetails)) :=
  [("/frameworks",
    [("get", demoOp ["frameworks"] false), ("post", demoOp ["frameworks"] true)]),
   ("/health", [("get", demoOp [] false)])]

/-- C10 amended: every get/post/put/delete operation of every path appears
in the output, within an entry for its path whose category is the first tag
of the path's first CRUD operation (general when that operation is
untagged); conversely every output entry comes from an input path with its
category and operations so computed; and the scenario catalog with two
tagged operations and one untagged operation yields three operations, with
the untagged one grouped under general. -/
theorem list_endpoints_grouping (paths : List (String × List (String × OpDetails))) :
    (∀ pm, pm ∈ paths → ∀ md, md ∈ pm.2 → md.1 ∈ crudMethods →
      ∃ e, e ∈ list_available_endpoints paths ∧ e.1 = pm.1 ∧
        e.2.1 = pathCategory pm.2 ∧ opInfo md.1 md.2 ∈ e.2.2) ∧
    (∀ e, e ∈ list_available_endpoints paths →
      ∃ pm, pm ∈ paths ∧ e.1 = pm.1 ∧ e.2.1 = pathCategory pm.2 ∧
        e.2.2 = pathOperations pm.2) ∧
    ((list_available_endpoints demoCatalog).map (fun e => e.2.2.length)).sum = 3 ∧
    list_available_endpoints demoCatalog =
      [("/frameworks", "frameworks",
        pathOperations
          [("get", demoOp ["frameworks"] false), ("post", demoOp ["frameworks"] true)]),
       ("/health", "general", pathOperations [("get", demoOp [] false)])] := by
  refine ⟨?_, ?_, by decide, rfl⟩
  · intro pm hpm md hmd hcrud
    have hmem : md ∈ pm.2.filter (fun p => decide (p.1 ∈ crudMethods)) :=
      List.mem_filter.mpr ⟨hmd, by simpa using hcrud⟩
    have hop : opInfo md.1 md.2 ∈ pathOperations pm.2 :=
      List.mem_map_of_mem _ hmem
    have hne : (pathOperations pm.2).isEmpty = false := by
      cases hE : pathOperations pm.2 with
      | nil => rw [hE] at hop; cases hop
      | cons a l => rfl
    refine ⟨(pm.1, pathCategory pm.2, pathOperations pm.2), ?_, rfl, rfl, hop⟩
    apply List.mem_filterMap.mpr
    refine ⟨pm, hpm, ?_⟩
    rw [hne]
    simp
  · intro e he
    obtain ⟨pm, hpm, hf⟩ := List.mem_filterMap.mp he
    cases hE : (pathOperations pm.2).isEmpty with
    | true => rw [hE] at hf; simp at hf
    | false =>
      rw [hE] at hf
      simp only [Bool.false_eq_true, if_false] at hf
      obtain rfl := Option.some.inj hf
      exact ⟨pm, hpm, rfl, rfl, rfl⟩

/-- Witness for C10 amended: the untagged health endpoint's GET operation
appears, grouped under general. -/
theorem list_endpoints_grouping_witness :
    ("/health", [("get", demoOp [] false)]) ∈ demoCatalog ∧
    ("get", demoOp [] false) ∈ [("get", demoOp [] false)] ∧
    ("get" : String) ∈ crudMethods ∧
    pathCategory [("get", demoOp [] false)] = "general" ∧
    (∃ e, e ∈ list_available_endpoints demoCatalog ∧ e.1 = "/health" ∧
      e.2.1 = pathCategory [("get", demoOp [] false)] ∧
      opInfo "get" (demoOp [] false) ∈ e.2.2) := by
  refine ⟨by simp [demoCatalog], by simp, by decide, rfl, ?_⟩
  exact (list_endpoints_grouping demoCatalog).1 ("/health", [("get", demoOp [] false)])
    (by simp [demoCatalog]) ("get", demoOp [] false) (by simp) (by decide)

end Fusefy

namespace Fusefy

/-- C7 counterexample: an empty response body is not parseable as JSON
(json.loads raises on it), yet tools_config.py line 79 short-circuits the
empty text to an empty object before parsing, so the envelope's data is the
empty dict and not a raw_response wrap of the body text — refuting the claim
that every unparseable body is wrapped under the raw-response key. -/
theorem call_fusefy_api_empty_body_counterexample :
    (fun _ => none : String → Option Json) "" = none ∧
    call_fusefy_api (fun _ => none) "/frameworks" "GET" none none none
      (fun _ => AttemptOutcome.httpResponse 200 "") =
      Except.ok (mkEnvelope (fun _ => none) (buildPath "/frameworks" "GET" none)
        "GET" 200 "") ∧
    (mkEnvelope (fun _ => none) (buildPath "/frameworks" "GET" none) "GET" 200 "").data =
      some (Json.obj []) ∧
    Json.obj [] ≠ Json.obj [("raw_response", Json.str "")] := by
  refine ⟨rfl, retryLoop_first_ok _ 0 2 _ rfl, rfl, ?_⟩
  intro h
  simp at h

end Fusefy
